import Mathlib

set_option maxRecDepth 4000

/-!
Shallow embedding of the order-to-notification pipeline of the e-commerce
repository: order intake (`OrderService`), event publishing
(`EventPublisher`, `EventBuilder`), the notification event handler
(`OrderEventHandler`), the notification orchestrator
(`NotificationService`), the consumer per-record path
(`OrderEventConsumer`) and the Joi based event validator
(`EventValidator`).  JavaScript objects are modelled as structures whose
possibly missing fields are `Option`s, numbers as exact rationals, and
thrown errors as `Except String`.  External collaborators (repository,
producer, channel transports, clock, random ids) enter as explicit
parameters.
-/

/-- JavaScript truthiness of a possibly missing string field: `undefined`,
`null` and the empty string are falsy. -/
def truthyStr : Option String → Bool
  | some s => s ≠ ""
  | none => false

/-- JavaScript `x || dflt` on a possibly missing string: the fallback is
used when the field is missing or empty. -/
def jsOrStr (o : Option String) (dflt : String) : String :=
  match o with
  | some s => if s = "" then dflt else s
  | none => dflt

/-- An order item as received from the client by
`orderservice/src/services/OrderService.js`. -/
structure Item where
  id : Option String
  title : Option String
  quantity : Option Rat
  price : Option Rat
  deriving Repr, DecidableEq

/-- The raw order input of `OrderService.createOrder`.  `totalAmount` is a
client supplied total; the service never reads it. -/
structure RawOrder where
  userId : Option String
  items : Option (List Item)
  customerEmail : Option String
  customerName : Option String
  totalAmount : Option Rat
  deriving Repr, DecidableEq

namespace OrderService

/-- One iteration of the `forEach` body of `OrderService.validateOrderData`;
`idx` is the 1-based index used in the error messages. -/
def validateItem (idx : Nat) (it : Item) : Except String Unit :=
  if ¬ truthyStr it.id then
    .error ("Item " ++ toString idx ++ ": Product ID is required")
  else if ¬ truthyStr it.title then
    .error ("Item " ++ toString idx ++ ": Product title is required")
  else
    match it.quantity with
    | none => .error ("Item " ++ toString idx ++ ": Valid quantity is required")
    | some q =>
      if q ≤ 0 then .error ("Item " ++ toString idx ++ ": Valid quantity is required")
      else
        match it.price with
        | none => .error ("Item " ++ toString idx ++ ": Valid price is required")
        | some p =>
          if p ≤ 0 then .error ("Item " ++ toString idx ++ ": Valid price is required")
          else .ok ()

/-- The `forEach` of `validateOrderData` over the items: the first failing
item throws. -/
def validateItems : Nat → List Item → Except String Unit
  | _, [] => .ok ()
  | idx, it :: rest =>
    match validateItem idx it with
    | .error m => .error m
    | .ok _ => validateItems (idx + 1) rest

/-- `OrderService.validateOrderData`: required fields and per item checks,
in source order. -/
def validateOrderData (od : RawOrder) : Except String Unit :=
  if ¬ truthyStr od.userId then .error "User ID is required"
  else
    match od.items with
    | none => .error "Order must contain at least one item"
    | some items =>
      if items.isEmpty then .error "Order must contain at least one item"
      else if ¬ truthyStr od.customerEmail then .error "Customer email is required"
      else if ¬ truthyStr od.customerName then .error "Customer name is required"
      else validateItems 1 items

/-- `OrderService.calculateTotal`: reduce over the items accumulating
`quantity * price`.  A missing operand would be NaN arithmetic in
JavaScript and is modelled as 0; every call site is guarded by validation,
which guarantees both fields are present. -/
def calculateTotal (items : List Item) : Rat :=
  items.foldl (fun total it => total + it.quantity.getD 0 * it.price.getD 0) 0

/-- The `orderToSave` object literal built inside `createOrder`. -/
structure OrderToSave where
  userId : Option String
  items : List Item
  totalAmount : Rat
  customerEmail : Option String
  customerName : Option String
  status : String
  deriving Repr, DecidableEq

/-- The `orderToSave` literal of `createOrder`: the total is computed from
the items, never taken from the input. -/
def orderToSave (od : RawOrder) : OrderToSave :=
  { userId := od.userId
    items := od.items.getD []
    totalAmount := calculateTotal (od.items.getD [])
    customerEmail := od.customerEmail
    customerName := od.customerName
    status := "PENDING" }

end OrderService

/-- Modelled from the spec: the stored order returned by the repository
collaborator (the repository and order model sources are not under the
source tree).  Per the spec the repository assigns `orderId` and the
stored order keeps the saved fields. -/
structure StoredOrder where
  orderId : String
  userId : Option String
  items : List Item
  totalAmount : Rat
  customerEmail : Option String
  customerName : Option String
  status : String
  deriving Repr, DecidableEq

/-- Modelled from the spec: `repository.save` assigns a generated
`orderId` and keeps the saved fields. -/
def saveOrder (oid : String) (o : OrderService.OrderToSave) : StoredOrder :=
  { orderId := oid
    userId := o.userId
    items := o.items
    totalAmount := o.totalAmount
    customerEmail := o.customerEmail
    customerName := o.customerName
    status := o.status }

/-- The `ORDER_CREATED` payload produced by the order model
`toEventData`. -/
structure OrderEventPayload where
  orderId : String
  userId : Option String
  items : List Item
  totalAmount : Rat
  customerEmail : Option String
  customerName : Option String
  status : String
  deriving Repr, DecidableEq

/-- Modelled from the spec: the order model method `toEventData` (the
model source is not under the source tree); the payload carries the stored
order's canonical fields. -/
def StoredOrder.toEventData (o : StoredOrder) : OrderEventPayload :=
  { orderId := o.orderId
    userId := o.userId
    items := o.items
    totalAmount := o.totalAmount
    customerEmail := o.customerEmail
    customerName := o.customerName
    status := o.status }

/-- An event envelope as a producing component builds it.  Every field is
an `Option` so that the presence of each envelope field is observable. -/
structure Envelope where
  id : Option String
  type : Option String
  timestamp : Option String
  version : Option String
  source : Option String
  data : Option OrderEventPayload
  deriving Repr, DecidableEq

namespace EventPublisher

/-- `EventPublisher.publishOrderCreated`: the envelope literal built and
handed to `publishEvent`; `now` is the `new Date().toISOString()` clock
value.  The literal has no `id` field. -/
def publishOrderCreated (now : String) (order : StoredOrder) : Envelope :=
  { id := none
    type := some "ORDER_CREATED"
    timestamp := some now
    version := some "1.0"
    source := some "order-service"
    data := some order.toEventData }

end EventPublisher

namespace EventBuilder

/-- `EventBuilder.createOrderCreatedEvent`: `uuid` is the
`crypto.randomUUID()` value and `now` the clock value. -/
def createOrderCreatedEvent (uuid now : String) (orderData : OrderEventPayload) :
    Envelope :=
  { id := some uuid
    type := some "ORDER_CREATED"
    timestamp := some now
    version := some "1.0"
    source := some "order-service"
    data := some orderData }

end EventBuilder

/-- Presence of the envelope fields of the data model (`baseEventSchema`
fields: id, type, timestamp, version, source, data). -/
def baseFieldsPresent (e : Envelope) : Bool :=
  e.id.isSome && e.type.isSome && e.timestamp.isSome && e.version.isSome &&
    e.source.isSome && e.data.isSome

/-- An externally visible side effect of `OrderService.createOrder`. -/
inductive OrderEffect
  | save (o : OrderService.OrderToSave)
  | publish (e : Envelope)
  deriving Repr, DecidableEq

/-- Outcomes of the external collaborators of `createOrder`: the repository
save (the generated order id, or a repository error) and the producer
send, plus the clock value read at publish time. -/
structure OrderEnv where
  saveResult : Except String String
  publishResult : Except String Unit
  now : String

namespace OrderService

/-- `OrderService.createOrder`, strictly in source order: validate, build
`orderToSave`, save via the repository, publish the `ORDER_CREATED`
envelope.  The effect trace records which collaborator calls were made. -/
def createOrder (env : OrderEnv) (od : RawOrder) :
    Except String StoredOrder × List OrderEffect :=
  match validateOrderData od with
  | .error m => (.error m, [])
  | .ok _ =>
    let o := orderToSave od
    match env.saveResult with
    | .error m => (.error m, [.save o])
    | .ok oid =>
      let saved := saveOrder oid o
      let ev := EventPublisher.publishOrderCreated env.now saved
      match env.publishResult with
      | .error m => (.error ("Event publishing failed: " ++ m), [.save o, .publish ev])
      | .ok _ => (.ok saved, [.save o, .publish ev])

end OrderService

/-- The `data` payload of an event as the notification handler sees it
(the fields it reads). -/
structure EventData where
  orderId : Option String
  customerEmail : Option String
  deriving Repr, DecidableEq

/-- An inbound event as the notification handler receives it: the three
top level fields `OrderEventHandler` reads.  `data = none` models a
missing or non-object `data` field. -/
structure Event where
  type : Option String
  timestamp : Option String
  data : Option EventData
  deriving Repr, DecidableEq

/-- One per channel entry of the aggregated notification record. -/
structure NotificationEntry where
  type : String
  status : String
  deriving Repr, DecidableEq

/-- The aggregated record `NotificationService.sendOrderConfirmation`
returns. -/
structure NotificationRecord where
  orderId : Option String
  notifications : List NotificationEntry
  deriving Repr, DecidableEq

/-- One entry of the orchestrator's in-memory notification history
(`storeNotificationHistory`). -/
structure HistoryEntry where
  orderId : Option String
  type : String
  deriving Repr, DecidableEq

/-- Outcomes of the mocked channel transports for one logical
notification: each send either returns a message id or throws. -/
structure ChannelEnv where
  emailResult : Except String String
  smsResult : Except String String

namespace NotificationService

/-- `NotificationService.sendOrderConfirmation`: attempts the email send
inside try/catch (a throw becomes a `failed` entry, a result a `success`
entry; nothing escapes), appends one entry to the notification history and
returns the aggregated record.  The SMS collaborator is held by the
service but not consulted on the confirmation path. -/
def sendOrderConfirmation (cenv : ChannelEnv) (history : List HistoryEntry)
    (orderData : EventData) : NotificationRecord × List HistoryEntry :=
  let entry : NotificationEntry :=
    match cenv.emailResult with
    | .ok _ => { type := "email", status := "success" }
    | .error _ => { type := "email", status := "failed" }
  ({ orderId := orderData.orderId, notifications := [entry] },
    history ++ [{ orderId := orderData.orderId, type := "ORDER_CONFIRMATION" }])

end NotificationService

namespace OrderEventHandler

/-- `OrderEventHandler.isValidEvent`: truthy `type` and `timestamp`, and
`data` present as an object. -/
def isValidEvent (e : Event) : Bool :=
  truthyStr e.type && truthyStr e.timestamp && e.data.isSome

/-- `OrderEventHandler.generateEventId`: the dedup fingerprint
`type-orderId-timestamp`, with `unknown` for a missing order id and the
current clock (`now`, the `Date.now()` value) for a missing timestamp. -/
def generateEventId (now : String) (e : Event) : String :=
  let orderId := jsOrStr (e.data.bind EventData.orderId) "unknown"
  let timestamp := jsOrStr e.timestamp now
  (match e.type with | some t => t | none => "undefined") ++ "-" ++ orderId ++
    "-" ++ timestamp

/-- Which return point of `OrderEventHandler.handle` was taken (each has
its own log line in the source). -/
inductive HandleOutcome
  | invalidDropped
  | duplicateIgnored
  | ignoredType
  | processedOk
  deriving Repr, DecidableEq

/-- The handler's process-wide mutable state: the dedup set (insertion
ordered, as a JavaScript `Set` iterates) and the orchestrator history. -/
structure HandlerState where
  processed : List String
  history : List HistoryEntry
  deriving Repr, DecidableEq

/-- The dedup bookkeeping at the end of a successful `handle`: add the
fingerprint, then if the set holds more than 1000 entries clear it and
re-add only the last 500 (`Array.from(set).slice(-500)`). -/
def addProcessed (l : List String) (eid : String) : List String :=
  if 1000 < (l ++ [eid]).length then
    (l ++ [eid]).drop ((l ++ [eid]).length - 500)
  else l ++ [eid]

/-- `OrderEventHandler.handle`: structural check, dedup check, dispatch on
type (only `ORDER_CREATED` is handled), delegate to the orchestrator,
record the fingerprint with trimming.  The orchestrator of this
configuration never throws, so the catch-and-rethrow wrapper of the source
has no live throwing path and `handle` is total. -/
def handle (cenv : ChannelEnv) (now : String) (s : HandlerState) (e : Event) :
    HandleOutcome × HandlerState :=
  if ¬ isValidEvent e then (.invalidDropped, s)
  else if generateEventId now e ∈ s.processed then (.duplicateIgnored, s)
  else if e.type = some "ORDER_CREATED" then
    match e.data with
    | some d =>
      (.processedOk,
        { processed := addProcessed s.processed (generateEventId now e)
          history := (NotificationService.sendOrderConfirmation cenv s.history d).2 })
    | none => (.invalidDropped, s)
  else (.ignoredType, s)

end OrderEventHandler

namespace OrderEventConsumer

/-- `OrderEventConsumer.parseMessage`: the JSON parse of the record value,
with its error rewrapped.  The wire bytes are outside the embedding, so
the parse outcome is the input. -/
def parseMessage (raw : Except String Event) : Except String Event :=
  match raw with
  | .ok e => .ok e
  | .error m => .error ("Message parsing failed: " ++ m)

/-- `OrderEventConsumer.processMessage`: parse, then invoke the handler;
any error is logged and re-thrown (`throw error`).  The second component
counts handler invocations. -/
def processMessage (raw : Except String Event)
    (handler : Event → Except String Unit) : Except String Unit × Nat :=
  match parseMessage raw with
  | .error m => (.error m, 0)
  | .ok e =>
    match handler e with
    | .error m => (.error m, 1)
    | .ok _ => (.ok (), 1)

/-- The `eachMessage` callback passed to `consumer.run`: it awaits
`processMessage` inside try/catch and does not re-throw
("Don't re-throw here to prevent consumer crash"). -/
def eachMessage (raw : Except String Event)
    (handler : Event → Except String Unit) : Except String Unit × Nat :=
  match processMessage raw handler with
  | (.error _, n) => (.ok (), n)
  | (.ok _, n) => (.ok (), n)

end OrderEventConsumer

/-- Split a character list at every occurrence of the separator (the
behaviour of `String.splitOn` with a one character separator). -/
def splitChars (c : Char) : List Char → List (List Char)
  | [] => [[]]
  | x :: xs =>
    match splitChars c xs with
    | [] => [[x]]
    | y :: ys => if x = c then [] :: y :: ys else (x :: y) :: ys

/-- All characters are decimal digits. -/
def allDigits (l : List Char) : Bool :=
  l.all Char.isDigit

/-- All characters are hexadecimal digits. -/
def allHexDigits (l : List Char) : Bool :=
  l.all fun c => c.isDigit || "abcdefABCDEF".toList.contains c

/-- Shape of a GUID string as Joi `string().uuid()` accepts it:
8-4-4-4-12 hexadecimal groups. -/
def isUuid (s : String) : Bool :=
  match splitChars '-' s.toList with
  | [a, b, c, d, e] =>
    a.length == 8 && b.length == 4 && c.length == 4 && d.length == 4 &&
      e.length == 12 && allHexDigits a && allHexDigits b && allHexDigits c &&
      allHexDigits d && allHexDigits e
  | _ => false

/-- The `YYYY-MM-DD` date part of an ISO-8601 string. -/
def isDatePart (d : List Char) : Bool :=
  match splitChars '-' d with
  | [y, m, dd] =>
    y.length == 4 && m.length == 2 && dd.length == 2 && allDigits y &&
      allDigits m && allDigits dd
  | _ => false

/-- The seconds field of an ISO-8601 time, with an optional fraction. -/
def isTimeSec (s : List Char) : Bool :=
  match splitChars '.' s with
  | [sec] => sec.length == 2 && allDigits sec
  | [sec, frac] => sec.length == 2 && allDigits sec && !frac.isEmpty && allDigits frac
  | _ => false

/-- The `HH:MM:SS(.fff)?Z?` time part of an ISO-8601 string. -/
def isTimePart (t : List Char) : Bool :=
  let t2 := if t.getLast? = some 'Z' then t.dropLast else t
  match splitChars ':' t2 with
  | [h, m, s] => h.length == 2 && allDigits h && m.length == 2 && allDigits m && isTimeSec s
  | _ => false

/-- Shape of the ISO-8601 date strings Joi `date().iso()` accepts (numeric
timezone offsets are not modelled, only `Z`). -/
def isIsoDate (s : String) : Bool :=
  match splitChars 'T' s.toList with
  | [d] => isDatePart d
  | [d, t] => isDatePart d && isTimePart t
  | _ => false

/-- Shape of the addresses Joi `string().email()` accepts: a nonempty
local part and a domain of at least two nonempty labels. -/
def emailOk (s : String) : Bool :=
  match splitChars '@' s.toList with
  | [lp, domain] =>
    !lp.isEmpty &&
      (let parts := splitChars '.' domain
       decide (2 ≤ parts.length) && parts.all fun p => !p.isEmpty)
  | _ => false

/-- Joi `string().optional()`: the field may be absent, but when present it
must be a nonempty string. -/
def optStrOk : Option String → Bool
  | none => true
  | some s => s ≠ ""

/-- The `customerInfo` object of the order event payload schemas. -/
structure CustomerInfo where
  email : Option String
  phone : Option String
  name : Option String
  extras : List String
  deriving Repr, DecidableEq

/-- The `customerInfo` sub-schema: required email (email format), optional
phone, required name; Joi rejects unknown keys. -/
def customerInfoOk (c : CustomerInfo) : Bool :=
  (match c.email with | some s => emailOk s | none => false) &&
    optStrOk c.phone && truthyStr c.name && c.extras.isEmpty

/-- An item of the `ORDER_CREATED` payload schema. -/
structure EventItem where
  productId : Option String
  name : Option String
  quantity : Option Int
  price : Option Rat
  extras : List String
  deriving Repr, DecidableEq

/-- The item sub-schema of `orderCreatedEventSchema`: required product id
and name, integer quantity at least 1, positive price. -/
def eventItemOk (it : EventItem) : Bool :=
  truthyStr it.productId && truthyStr it.name &&
    (match it.quantity with | some q => decide (1 ≤ q) | none => false) &&
    (match it.price with | some p => decide (0 < p) | none => false) &&
    it.extras.isEmpty

/-- The `shippingAddress` object of the `ORDER_CREATED` payload schema. -/
structure ShippingAddress where
  street : Option String
  city : Option String
  state : Option String
  zipCode : Option String
  country : Option String
  extras : List String
  deriving Repr, DecidableEq

/-- The `shippingAddress` sub-schema: five required strings. -/
def shippingAddressOk (a : ShippingAddress) : Bool :=
  truthyStr a.street && truthyStr a.city && truthyStr a.state &&
    truthyStr a.zipCode && truthyStr a.country && a.extras.isEmpty

/-- The `data` object of `orderCreatedEventSchema`. -/
structure OrderCreatedData where
  orderId : Option String
  userId : Option String
  items : Option (List EventItem)
  totalAmount : Option Rat
  shippingAddress : Option ShippingAddress
  paymentMethod : Option String
  customerInfo : Option CustomerInfo
  extras : List String
  deriving Repr, DecidableEq

/-- The `ORDER_CREATED` payload schema checks. -/
def orderCreatedDataOk (d : OrderCreatedData) : Bool :=
  truthyStr d.orderId && truthyStr d.userId &&
    (match d.items with | some l => !l.isEmpty && l.all eventItemOk | none => false) &&
    (match d.totalAmount with | some t => decide (0 < t) | none => false) &&
    (match d.shippingAddress with | some a => shippingAddressOk a | none => false) &&
    truthyStr d.paymentMethod &&
    (match d.customerInfo with | some c => customerInfoOk c | none => false) &&
    d.extras.isEmpty

/-- The order statuses of `ORDER_STATUSES`. -/
def statusValues : List String :=
  ["PENDING", "CONFIRMED", "PROCESSING", "SHIPPED", "DELIVERED", "CANCELLED"]

/-- The `data` object of `orderStatusUpdatedEventSchema`. -/
structure StatusUpdatedData where
  orderId : Option String
  userId : Option String
  oldStatus : Option String
  newStatus : Option String
  reason : Option String
  updatedBy : Option String
  estimatedDelivery : Option String
  trackingNumber : Option String
  customerInfo : Option CustomerInfo
  extras : List String
  deriving Repr, DecidableEq

/-- The `ORDER_STATUS_UPDATED` payload schema checks. -/
def statusUpdatedDataOk (d : StatusUpdatedData) : Bool :=
  truthyStr d.orderId && truthyStr d.userId &&
    (match d.oldStatus with | some s => statusValues.contains s | none => false) &&
    (match d.newStatus with | some s => statusValues.contains s | none => false) &&
    optStrOk d.reason && optStrOk d.updatedBy &&
    (match d.estimatedDelivery with | some s => isIsoDate s | none => true) &&
    optStrOk d.trackingNumber &&
    (match d.customerInfo with | some c => customerInfoOk c | none => false) &&
    d.extras.isEmpty

/-- The `data` object of `orderCancelledEventSchema`. -/
structure CancelledData where
  orderId : Option String
  userId : Option String
  reason : Option String
  refundAmount : Option Rat
  refundMethod : Option String
  cancelledBy : Option String
  customerInfo : Option CustomerInfo
  extras : List String
  deriving Repr, DecidableEq

/-- The `ORDER_CANCELLED` payload schema checks. -/
def cancelledDataOk (d : CancelledData) : Bool :=
  truthyStr d.orderId && truthyStr d.userId && truthyStr d.reason &&
    (match d.refundAmount with | some r => decide (0 < r) | none => true) &&
    optStrOk d.refundMethod && truthyStr d.cancelledBy &&
    (match d.customerInfo with | some c => customerInfoOk c | none => false) &&
    d.extras.isEmpty

/-- The `data` object of `healthCheckEventSchema`. -/
structure HealthData where
  service : Option String
  status : Option String
  checks : Option Unit
  timestamp : Option String
  extras : List String
  deriving Repr, DecidableEq

/-- The `HEALTH_CHECK` payload schema checks. -/
def healthDataOk (d : HealthData) : Bool :=
  truthyStr d.service &&
    (match d.status with | some s => ["UP", "DOWN", "DEGRADED"].contains s | none => false) &&
    (match d.timestamp with | some s => isIsoDate s | none => false) &&
    d.extras.isEmpty

/-- A type specific event payload of the schema registry. -/
inductive EventPayload
  | orderCreated (d : OrderCreatedData)
  | statusUpdated (d : StatusUpdatedData)
  | cancelled (d : CancelledData)
  | health (d : HealthData)
  deriving Repr, DecidableEq

/-- An event object as handed to `EventValidator.validate`.  `extras`
names the unknown top level fields present on the caller's object. -/
structure JEvent where
  id : Option String
  type : Option String
  timestamp : Option String
  version : Option String
  source : Option String
  data : Option EventPayload
  metadata : Option Unit
  extras : List String
  deriving Repr, DecidableEq

/-- The sanitized copy returned on successful validation (the `value` of
the Joi validation): every required field present, `version` defaulted,
no unknown fields. -/
structure SanitizedEvent where
  id : String
  type : String
  timestamp : String
  version : String
  source : String
  data : EventPayload
  metadata : Option Unit
  deriving Repr, DecidableEq

/-- The source, data and unknown-key checks of `baseEventSchema.validate`,
shared by both version branches (`v` is the effective version after the
default). -/
def baseValidateTail (e : JEvent) (i ty ts v : String) : Except String SanitizedEvent :=
  match e.source with
  | none => .error "\"source\" is required"
  | some src =>
    if src = "" then .error "\"source\" is not allowed to be empty"
    else
      match e.data with
      | none => .error "\"data\" is required"
      | some d =>
        match e.extras with
        | [] =>
          .ok { id := i, type := ty, timestamp := ts, version := v,
                source := src, data := d, metadata := e.metadata }
        | x :: _ => .error ("\"" ++ x ++ "\" is not allowed")

/-- `baseEventSchema.validate`: required fields and formats in schema key
order; `version` defaults to "1.0"; `metadata` is optional; unknown keys
are rejected (Joi default, no `stripUnknown`).  On success the sanitized
copy is a fresh value; the caller's object is untouched. -/
def baseValidate (e : JEvent) : Except String SanitizedEvent :=
  match e.id with
  | none => .error "\"id\" is required"
  | some i =>
    if ¬ isUuid i then .error "\"id\" must be a valid GUID"
    else
      match e.type with
      | none => .error "\"type\" is required"
      | some ty =>
        if ty = "" then .error "\"type\" is not allowed to be empty"
        else
          match e.timestamp with
          | none => .error "\"timestamp\" is required"
          | some ts =>
            if ¬ isIsoDate ts then .error "\"timestamp\" must be in iso format"
            else
              match e.version with
              | some v =>
                if v = "" then .error "\"version\" is not allowed to be empty"
                else baseValidateTail e i ty ts v
              | none => baseValidateTail e i ty ts "1.0"

/-- The supported event types of the schema registry (`EVENT_TYPES`). -/
def supportedTypes : List String :=
  ["ORDER_CREATED", "ORDER_STATUS_UPDATED", "ORDER_CANCELLED", "HEALTH_CHECK"]

/-- Whether a payload satisfies the registered schema of the given type
(the type specific half of `eventSchemas[event.type].validate`; the
envelope half already passed). -/
def payloadOk : String → EventPayload → Bool
  | "ORDER_CREATED", .orderCreated d => orderCreatedDataOk d
  | "ORDER_STATUS_UPDATED", .statusUpdated d => statusUpdatedDataOk d
  | "ORDER_CANCELLED", .cancelled d => cancelledDataOk d
  | "HEALTH_CHECK", .health d => healthDataOk d
  | _, _ => false

/-- The result union of `EventValidator.validate`. -/
inductive ValidationResult
  | valid (sanitized : SanitizedEvent)
  | invalid (message : String)
  deriving Repr, DecidableEq

namespace EventValidator

/-- `EventValidator.validate`: base schema first, then the registry lookup
by `event.type` (an unregistered type fails with the supported types as
context), then the type specific schema; success returns the sanitized
value. -/
def validate (e : JEvent) : ValidationResult :=
  match baseValidate e with
  | .error m => .invalid ("Base validation failed: " ++ m)
  | .ok s =>
    if supportedTypes.contains s.type then
      if payloadOk s.type s.data then .valid s
      else .invalid "Event validation failed: data does not match the schema of its type"
    else .invalid ("Unknown event type: " ++ s.type)

end EventValidator

/-- A fully valid item of the order input: truthy id and title, positive
quantity and price (the conditions `validateOrderData` checks per item). -/
def OrderService.itemOk (it : Item) : Bool :=
  truthyStr it.id && truthyStr it.title &&
    (match it.quantity with | some q => decide (0 < q) | none => false) &&
    (match it.price with | some p => decide (0 < p) | none => false)

/-- A valid concrete order input. -/
def sampleRawOrder : RawOrder :=
  { userId := some "u1"
    items := some [{ id := some "1", title := some "Widget",
                     quantity := some 2, price := some 10 }]
    customerEmail := some "a@b.com"
    customerName := some "A"
    totalAmount := none }

/-- An order input with an empty items list. -/
def emptyItemsOrder : RawOrder :=
  { userId := some "u1"
    items := some []
    customerEmail := some "a@b.com"
    customerName := some "A"
    totalAmount := none }

/-- Collaborator outcomes where both the save and the publish succeed. -/
def sampleOrderEnv : OrderEnv :=
  { saveResult := .ok "order-1"
    publishResult := .ok ()
    now := "2025-01-01T10:00:00.000Z" }

/-- A concrete event payload with an order id. -/
def sampleEventData : EventData :=
  { orderId := some "order-1", customerEmail := some "a@b.com" }

/-- A structurally valid `ORDER_CREATED` event. -/
def sampleEvent : Event :=
  { type := some "ORDER_CREATED"
    timestamp := some "2025-01-01T10:00:00.000Z"
    data := some sampleEventData }

/-- A structurally valid event of a type the handler does not handle. -/
def healthCheckEvent : Event :=
  { type := some "HEALTH_CHECK"
    timestamp := some "2025-01-01T10:00:00.000Z"
    data := some { orderId := none, customerEmail := none } }

/-- A structurally valid `ORDER_CREATED` event with no order id. -/
def noOrderIdEvent1 : Event :=
  { type := some "ORDER_CREATED"
    timestamp := some "2025-02-02T08:00:00.000Z"
    data := some { orderId := none, customerEmail := some "x@y.com" } }

/-- A second valid `ORDER_CREATED` event, about different order data, that
also has no order id and shares the timestamp of the first. -/
def noOrderIdEvent2 : Event :=
  { type := some "ORDER_CREATED"
    timestamp := some "2025-02-02T08:00:00.000Z"
    data := some { orderId := none, customerEmail := some "z@w.com" } }

/-- The handler state at service start: empty dedup set, empty history. -/
def emptyState : OrderEventHandler.HandlerState :=
  { processed := [], history := [] }

/-- Channel outcomes where both transports succeed. -/
def okChannels : ChannelEnv :=
  { emailResult := .ok "email-1", smsResult := .ok "sms-1" }

/-- Channel outcomes where the email send succeeds and the SMS transport
throws (one channel fails, the other succeeds). -/
def smsFailChannels : ChannelEnv :=
  { emailResult := .ok "email-1"
    smsResult := .error "Mock SMS service temporarily unavailable" }

/-- An event handler stub that always raises. -/
def failingHandler : Event → Except String Unit :=
  fun _ => .error "handler failure"

/-- A fully valid `HEALTH_CHECK` event for the validator. -/
def healthySample : JEvent :=
  { id := some "123e4567-e89b-42d3-a456-426614174000"
    type := some "HEALTH_CHECK"
    timestamp := some "2025-01-01T10:00:00Z"
    version := none
    source := some "order-service"
    data := some (.health { service := some "notification-service"
                            status := some "UP"
                            checks := none
                            timestamp := some "2025-01-01T10:00:00Z"
                            extras := [] })
    metadata := none
    extras := [] }

/-- The same event carrying one unknown top level field. -/
def extraFieldSample : JEvent :=
  { healthySample with extras := ["priority"] }

/-- The sanitized copy `validate` returns for `healthySample`: the same
fields with the `version` default applied. -/
def healthySanitized : SanitizedEvent :=
  { id := "123e4567-e89b-42d3-a456-426614174000"
    type := "HEALTH_CHECK"
    timestamp := "2025-01-01T10:00:00Z"
    version := "1.0"
    source := "order-service"
    data := .health { service := some "notification-service"
                      status := some "UP"
                      checks := none
                      timestamp := some "2025-01-01T10:00:00Z"
                      extras := [] }
    metadata := none }

/-!
Theorems.  Helper lemmas first, then one theorem per claim (with its
witness or counterexample where applicable).
-/

theorem foldl_total_eq (items : List Item) (a : Rat) :
    items.foldl (fun total it => total + it.quantity.getD 0 * it.price.getD 0) a =
      a + (items.map fun it => it.quantity.getD 0 * it.price.getD 0).sum := by
  induction items generalizing a with
  | nil => simp
  | cons x l ih => simp [ih, add_assoc]

theorem calculateTotal_eq_sum (items : List Item) :
    OrderService.calculateTotal items =
      (items.map fun it => it.quantity.getD 0 * it.price.getD 0).sum := by
  simpa using foldl_total_eq items 0

theorem validateItem_ok {idx : Nat} {it : Item}
    (h : OrderService.validateItem idx it = .ok ()) :
    OrderService.itemOk it = true := by
  unfold OrderService.validateItem at h
  unfold OrderService.itemOk
  repeat' split at h
  all_goals first
  | exact Except.noConfusion h
  | simp_all [not_le]

theorem validateItems_ok {l : List Item} {idx : Nat}
    (h : OrderService.validateItems idx l = .ok ()) :
    ∀ it ∈ l, OrderService.itemOk it = true := by
  induction l generalizing idx with
  | nil => intro it hm; cases hm
  | cons x r ih =>
    intro it hm
    unfold OrderService.validateItems at h
    cases h1 : OrderService.validateItem idx x with
    | error m => rw [h1] at h; exact Except.noConfusion h
    | ok u =>
      rw [h1] at h
      cases hm with
      | head => cases u; exact validateItem_ok h1
      | tail _ hm2 => exact ih h it hm2

theorem validateOrderData_ok {od : RawOrder}
    (h : OrderService.validateOrderData od = .ok ()) :
    truthyStr od.userId = true ∧ od.items.getD [] ≠ [] ∧
      truthyStr od.customerEmail = true ∧ truthyStr od.customerName = true ∧
      ∀ it ∈ od.items.getD [], OrderService.itemOk it = true := by
  unfold OrderService.validateOrderData at h
  split at h
  · exact Except.noConfusion h
  rename_i hu
  rw [Bool.not_eq_true] at hu
  push_neg at hu
  cases hit : od.items with
  | none => rw [hit] at h; exact Except.noConfusion h
  | some items =>
    rw [hit] at h
    simp only [] at h
    split at h
    · exact Except.noConfusion h
    split at h
    · exact Except.noConfusion h
    split at h
    · exact Except.noConfusion h
    rename_i hne hce hcn
    refine ⟨by simpa using hu, ?_, by simpa using hce, by simpa using hcn, ?_⟩
    · simpa [List.isEmpty_iff] using hne
    · simpa using validateItems_ok h

/-- Claim C1: for every order input that passes validation, `createOrder`
hands the repository an order whose `totalAmount` is the sum over all
items of `quantity * price`, whatever `totalAmount` the client supplied in
the input. -/
theorem createOrder_total_is_item_sum (env : OrderEnv) (od : RawOrder)
    (ct : Option Rat) (h : OrderService.validateOrderData od = .ok ()) :
    ∃ o rest,
      (OrderService.createOrder env { od with totalAmount := ct }).2 =
        OrderEffect.save o :: rest ∧
      o.totalAmount =
        ((od.items.getD []).map fun it => it.quantity.getD 0 * it.price.getD 0).sum := by
  have hv : OrderService.validateOrderData { od with totalAmount := ct } = .ok () := h
  unfold OrderService.createOrder
  rw [hv]
  have htot :
      (OrderService.orderToSave { od with totalAmount := ct }).totalAmount =
        ((od.items.getD []).map fun it => it.quantity.getD 0 * it.price.getD 0).sum :=
    calculateTotal_eq_sum (od.items.getD [])
  cases hs : env.saveResult with
  | error m => exact ⟨_, _, rfl, htot⟩
  | ok oid =>
    cases hp : env.publishResult with
    | error m => exact ⟨_, _, rfl, htot⟩
    | ok u => exact ⟨_, _, rfl, htot⟩

/-- Claim C1 witness: a concrete valid order with a discarded client
total. -/
theorem createOrder_total_is_item_sum_witness :
    OrderService.validateOrderData sampleRawOrder = .ok () ∧
    (∃ o rest,
      (OrderService.createOrder sampleOrderEnv
          { sampleRawOrder with totalAmount := some 1 }).2 =
        OrderEffect.save o :: rest ∧
      o.totalAmount =
        ((sampleRawOrder.items.getD []).map fun it =>
          it.quantity.getD 0 * it.price.getD 0).sum) :=
  ⟨rfl, createOrder_total_is_item_sum sampleOrderEnv sampleRawOrder (some 1) rfl⟩

/-- Claim C2: an order input with zero items, or any item failing the
positivity or presence checks, or a missing required field, makes
`createOrder` fail with a validation error, with no repository save and no
event publish. -/
theorem createOrder_invalid_input_no_effects (env : OrderEnv) (od : RawOrder)
    (h : od.items.getD [] = [] ∨
         (∃ it ∈ od.items.getD [], OrderService.itemOk it = false) ∨
         truthyStr od.userId = false ∨ truthyStr od.customerEmail = false ∨
         truthyStr od.customerName = false) :
    (∃ m, (OrderService.createOrder env od).1 = .error m) ∧
      (OrderService.createOrder env od).2 = [] := by
  cases hval : OrderService.validateOrderData od with
  | error m =>
    unfold OrderService.createOrder
    rw [hval]
    exact ⟨⟨m, rfl⟩, rfl⟩
  | ok u =>
    cases u
    obtain ⟨h1, h2, h3, h4, h5⟩ := validateOrderData_ok hval
    rcases h with h | ⟨it, hmem, hbad⟩ | h | h | h
    · exact absurd h h2
    · rw [h5 it hmem] at hbad; exact Bool.noConfusion hbad
    · rw [h1] at h; exact Bool.noConfusion h
    · rw [h3] at h; exact Bool.noConfusion h
    · rw [h4] at h; exact Bool.noConfusion h

theorem isValidEvent_parts {e : Event}
    (h : OrderEventHandler.isValidEvent e = true) :
    truthyStr e.type = true ∧ truthyStr e.timestamp = true ∧ e.data.isSome = true := by
  unfold OrderEventHandler.isValidEvent at h
  simp only [Bool.and_eq_true] at h
  exact ⟨h.1.1, h.1.2, h.2⟩

theorem truthyStr_some {o : Option String} (h : truthyStr o = true) :
    ∃ s, o = some s ∧ s ≠ "" := by
  cases o with
  | none => exact absurd h (by simp [truthyStr])
  | some s => exact ⟨s, rfl, by simpa [truthyStr] using h⟩

theorem generateEventId_eq_of_valid {e : Event} (now1 now2 : String)
    (h : OrderEventHandler.isValidEvent e = true) :
    OrderEventHandler.generateEventId now1 e =
      OrderEventHandler.generateEventId now2 e := by
  obtain ⟨-, hts, -⟩ := isValidEvent_parts h
  obtain ⟨ts, hts1, hts2⟩ := truthyStr_some hts
  unfold OrderEventHandler.generateEventId
  rw [hts1]
  simp [jsOrStr, hts2]

theorem mem_addProcessed (l : List String) (eid : String) :
    eid ∈ OrderEventHandler.addProcessed l eid := by
  unfold OrderEventHandler.addProcessed
  split
  · have hk : (l ++ [eid]).length - 500 ≤ l.length := by
      simp only [List.length_append, List.length_singleton]
      omega
    rw [List.drop_append_of_le_length hk]
    exact List.mem_append_right _ (List.mem_singleton_self _)
  · exact List.mem_append_right _ (List.mem_singleton_self _)

theorem addProcessed_length_le (l : List String) (eid : String)
    (h : l.length ≤ 1000) :
    (OrderEventHandler.addProcessed l eid).length ≤ 1000 := by
  unfold OrderEventHandler.addProcessed
  split
  · rename_i hlen
    simp only [List.length_drop, List.length_append, List.length_singleton] at *
    omega
  · rename_i hlen
    simp only [not_lt, List.length_append, List.length_singleton] at *
    omega

theorem addProcessed_suffix (l : List String) (eid : String) :
    List.IsSuffix (OrderEventHandler.addProcessed l eid) (l ++ [eid]) := by
  unfold OrderEventHandler.addProcessed
  split
  · exact List.drop_suffix _ _
  · exact List.suffix_refl _

theorem handle_order_created {cenv : ChannelEnv} {now : String}
    {s : OrderEventHandler.HandlerState} {e : Event}
    (hv : OrderEventHandler.isValidEvent e = true)
    (ht : e.type = some "ORDER_CREATED")
    (hfresh : OrderEventHandler.generateEventId now e ∉ s.processed) :
    ∃ d, e.data = some d ∧
      OrderEventHandler.handle cenv now s e =
        (.processedOk,
         { processed :=
             OrderEventHandler.addProcessed s.processed
               (OrderEventHandler.generateEventId now e)
           history :=
             s.history ++ [{ orderId := d.orderId, type := "ORDER_CONFIRMATION" }] }) := by
  obtain ⟨-, -, hd⟩ := isValidEvent_parts hv
  obtain ⟨d, hdd⟩ := Option.isSome_iff_exists.mp hd
  refine ⟨d, hdd, ?_⟩
  unfold OrderEventHandler.handle
  rw [hv, hdd, ht]
  simp [hfresh, NotificationService.sendOrderConfirmation]

theorem handle_duplicate {cenv : ChannelEnv} {now : String}
    {s : OrderEventHandler.HandlerState} {e : Event}
    (hv : OrderEventHandler.isValidEvent e = true)
    (hdup : OrderEventHandler.generateEventId now e ∈ s.processed) :
    OrderEventHandler.handle cenv now s e = (.duplicateIgnored, s) := by
  unfold OrderEventHandler.handle
  rw [hv]
  simp [hdup]

theorem handle_processed_cases (cenv : ChannelEnv) (now : String)
    (s : OrderEventHandler.HandlerState) (e : Event) :
    (OrderEventHandler.handle cenv now s e).2.processed = s.processed ∨
    (OrderEventHandler.handle cenv now s e).2.processed =
      OrderEventHandler.addProcessed s.processed
        (OrderEventHandler.generateEventId now e) := by
  unfold OrderEventHandler.handle
  repeat' split
  all_goals first
  | exact Or.inl rfl
  | exact Or.inr rfl

/-- Claim C3: a structurally valid `ORDER_CREATED` event handled
successfully once is ignored as a duplicate on a second delivery with the
same type, order id and timestamp: the state is unchanged, the
orchestrator is not invoked again, and exactly one notification attempt is
recorded across both deliveries. -/
theorem handle_duplicate_delivery_idempotent (cenv1 cenv2 : ChannelEnv)
    (now1 now2 : String) (s : OrderEventHandler.HandlerState) (e : Event)
    (hv : OrderEventHandler.isValidEvent e = true)
    (ht : e.type = some "ORDER_CREATED")
    (hfresh : OrderEventHandler.generateEventId now1 e ∉ s.processed) :
    (OrderEventHandler.handle cenv1 now1 s e).1 = .processedOk ∧
    OrderEventHandler.handle cenv2 now2
        (OrderEventHandler.handle cenv1 now1 s e).2 e =
      (.duplicateIgnored, (OrderEventHandler.handle cenv1 now1 s e).2) ∧
    (OrderEventHandler.handle cenv1 now1 s e).2.history.length =
      s.history.length + 1 ∧
    (OrderEventHandler.handle cenv2 now2
        (OrderEventHandler.handle cenv1 now1 s e).2 e).2.history.length =
      s.history.length + 1 := by
  obtain ⟨d, hdd, h1⟩ := handle_order_created hv ht hfresh
  have hdup : OrderEventHandler.generateEventId now2 e ∈
      (OrderEventHandler.handle cenv1 now1 s e).2.processed := by
    rw [h1, generateEventId_eq_of_valid now2 now1 hv]
    exact mem_addProcessed _ _
  have h2 := @handle_duplicate cenv2 now2 _ e hv hdup
  refine ⟨by rw [h1], h2, ?_, ?_⟩
  · rw [h1]; simp
  · rw [h2, h1]; simp

/-- Claim C3 witness: redelivering a concrete valid event to a fresh
handler. -/
theorem handle_duplicate_delivery_idempotent_witness :
    OrderEventHandler.isValidEvent sampleEvent = true ∧
    sampleEvent.type = some "ORDER_CREATED" ∧
    OrderEventHandler.generateEventId "0" sampleEvent ∉ emptyState.processed ∧
    ((OrderEventHandler.handle okChannels "0" emptyState sampleEvent).1 = .processedOk ∧
     OrderEventHandler.handle smsFailChannels "1"
         (OrderEventHandler.handle okChannels "0" emptyState sampleEvent).2 sampleEvent =
       (.duplicateIgnored,
        (OrderEventHandler.handle okChannels "0" emptyState sampleEvent).2) ∧
     (OrderEventHandler.handle okChannels "0" emptyState sampleEvent).2.history.length =
       emptyState.history.length + 1 ∧
     (OrderEventHandler.handle smsFailChannels "1"
         (OrderEventHandler.handle okChannels "0" emptyState sampleEvent).2
         sampleEvent).2.history.length = emptyState.history.length + 1) :=
  ⟨rfl, rfl, List.not_mem_nil _,
    handle_duplicate_delivery_idempotent okChannels smsFailChannels "0" "1"
      emptyState sampleEvent rfl rfl (List.not_mem_nil _)⟩

/-- Claim C5: after every completed handle call the dedup set holds at
most 1000 entries, and the bulk trim retains exactly the most recently
inserted identities: the retained set is a suffix of the insertion order
containing the newest id, and exactly the last 500 entries once the cap is
exceeded. -/
theorem handle_dedup_capped (l : List String) (eid : String)
    (cenv : ChannelEnv) (now : String) (s : OrderEventHandler.HandlerState)
    (e : Event) (hl : l.length ≤ 1000) (hs : s.processed.length ≤ 1000) :
    (OrderEventHandler.addProcessed l eid).length ≤ 1000 ∧
    (1000 < l.length + 1 →
      OrderEventHandler.addProcessed l eid =
        (l ++ [eid]).drop (l.length + 1 - 500)) ∧
    List.IsSuffix (OrderEventHandler.addProcessed l eid) (l ++ [eid]) ∧
    eid ∈ OrderEventHandler.addProcessed l eid ∧
    (OrderEventHandler.handle cenv now s e).2.processed.length ≤ 1000 := by
  refine ⟨addProcessed_length_le l eid hl, ?_, addProcessed_suffix l eid,
    mem_addProcessed l eid, ?_⟩
  · intro hgt
    unfold OrderEventHandler.addProcessed
    rw [if_pos (by simpa using hgt)]
    simp
  · rcases handle_processed_cases cenv now s e with hc | hc
    · rw [hc]; exact hs
    · rw [hc]; exact addProcessed_length_le _ _ hs

/-- Claim C5 witness: a concrete small dedup set and handler state. -/
theorem handle_dedup_capped_witness :
    (["a"] : List String).length ≤ 1000 ∧ emptyState.processed.length ≤ 1000 ∧
    ((OrderEventHandler.addProcessed ["a"] "b").length ≤ 1000 ∧
     (1000 < (["a"] : List String).length + 1 →
       OrderEventHandler.addProcessed ["a"] "b" =
         ((["a"] : List String) ++ ["b"]).drop ((["a"] : List String).length + 1 - 500)) ∧
     List.IsSuffix (OrderEventHandler.addProcessed ["a"] "b")
       ((["a"] : List String) ++ ["b"]) ∧
     "b" ∈ OrderEventHandler.addProcessed ["a"] "b" ∧
     (OrderEventHandler.handle okChannels "0" emptyState sampleEvent).2.processed.length ≤
       1000) :=
  ⟨by decide, by decide,
    handle_dedup_capped ["a"] "b" okChannels "0" emptyState sampleEvent
      (by decide) (by decide)⟩

/-- Claim C9: a structurally valid event whose type is not `ORDER_CREATED`
leaves the handler state unchanged: its fingerprint is never recorded, the
orchestrator is never invoked, and a redelivery is again not treated as a
duplicate (it takes the ignored-type path both times). -/
theorem handle_unhandled_type_frame (cenv1 cenv2 : ChannelEnv)
    (now1 now2 : String) (s : OrderEventHandler.HandlerState) (e : Event)
    (hv : OrderEventHandler.isValidEvent e = true)
    (ht : e.type ≠ some "ORDER_CREATED")
    (hfresh : OrderEventHandler.generateEventId now1 e ∉ s.processed) :
    OrderEventHandler.handle cenv1 now1 s e = (.ignoredType, s) ∧
    OrderEventHandler.handle cenv2 now2
        (OrderEventHandler.handle cenv1 now1 s e).2 e = (.ignoredType, s) := by
  have hfresh2 : OrderEventHandler.generateEventId now2 e ∉ s.processed := by
    rw [generateEventId_eq_of_valid now2 now1 hv]; exact hfresh
  have h1 : OrderEventHandler.handle cenv1 now1 s e = (.ignoredType, s) := by
    unfold OrderEventHandler.handle
    rw [hv]
    simp [hfresh, ht]
  have h2 : OrderEventHandler.handle cenv2 now2 s e = (.ignoredType, s) := by
    unfold OrderEventHandler.handle
    rw [hv]
    simp [hfresh2, ht]
  exact ⟨h1, by rw [h1]; exact h2⟩

/-- Claim C9 witness: a concrete valid `HEALTH_CHECK` event delivered
twice to a fresh handler. -/
theorem handle_unhandled_type_frame_witness :
    OrderEventHandler.isValidEvent healthCheckEvent = true ∧
    healthCheckEvent.type ≠ some "ORDER_CREATED" ∧
    OrderEventHandler.generateEventId "0" healthCheckEvent ∉ emptyState.processed ∧
    (OrderEventHandler.handle okChannels "0" emptyState healthCheckEvent =
       (.ignoredType, emptyState) ∧
     OrderEventHandler.handle okChannels "1"
         (OrderEventHandler.handle okChannels "0" emptyState healthCheckEvent).2
         healthCheckEvent = (.ignoredType, emptyState)) :=
  ⟨rfl, by decide, List.not_mem_nil _,
    handle_unhandled_type_frame okChannels okChannels "0" "1" emptyState
      healthCheckEvent rfl (by decide) (List.not_mem_nil _)⟩

/-- Claim C10: two valid `ORDER_CREATED` events that both lack
`data.orderId` and share a timestamp get the same fingerprint
`ORDER_CREATED-unknown-timestamp`, so after the first is handled the
second is dropped as a duplicate even though it may describe a different
order. -/
theorem generateEventId_unknown_collision (cenv1 cenv2 : ChannelEnv)
    (now1 now2 : String) (s : OrderEventHandler.HandlerState) (e1 e2 : Event)
    (hv1 : OrderEventHandler.isValidEvent e1 = true)
    (hv2 : OrderEventHandler.isValidEvent e2 = true)
    (ht1 : e1.type = some "ORDER_CREATED")
    (ht2 : e2.type = some "ORDER_CREATED")
    (ho1 : e1.data.bind EventData.orderId = none)
    (ho2 : e2.data.bind EventData.orderId = none)
    (hts : e1.timestamp = e2.timestamp)
    (hfresh : OrderEventHandler.generateEventId now1 e1 ∉ s.processed) :
    (∃ ts, e1.timestamp = some ts ∧
      OrderEventHandler.generateEventId now1 e1 = "ORDER_CREATED-unknown-" ++ ts ∧
      OrderEventHandler.generateEventId now2 e2 = "ORDER_CREATED-unknown-" ++ ts) ∧
    (OrderEventHandler.handle cenv1 now1 s e1).1 = .processedOk ∧
    OrderEventHandler.handle cenv2 now2
        (OrderEventHandler.handle cenv1 now1 s e1).2 e2 =
      (.duplicateIgnored, (OrderEventHandler.handle cenv1 now1 s e1).2) := by
  obtain ⟨-, hts1, -⟩ := isValidEvent_parts hv1
  obtain ⟨ts, htsv, htsne⟩ := truthyStr_some hts1
  have hid1 : OrderEventHandler.generateEventId now1 e1 =
      "ORDER_CREATED-unknown-" ++ ts := by
    unfold OrderEventHandler.generateEventId
    rw [ht1, ho1, htsv]
    simp only [jsOrStr]
    rw [if_neg htsne]
    rfl
  have hid2 : OrderEventHandler.generateEventId now2 e2 =
      "ORDER_CREATED-unknown-" ++ ts := by
    unfold OrderEventHandler.generateEventId
    rw [ht2, ho2, ← hts, htsv]
    simp only [jsOrStr]
    rw [if_neg htsne]
    rfl
  obtain ⟨d, hdd, h1⟩ := handle_order_created hv1 ht1 hfresh
  have hdup : OrderEventHandler.generateEventId now2 e2 ∈
      (OrderEventHandler.handle cenv1 now1 s e1).2.processed := by
    rw [h1, hid2, ← hid1]
    exact mem_addProcessed _ _
  have h2 := @handle_duplicate cenv2 now2 _ e2 hv2 hdup
  exact ⟨⟨ts, htsv, hid1, hid2⟩, by rw [h1], h2⟩

/-- Claim C10 witness: two concrete valid events about different orders,
both without order ids and with equal timestamps. -/
theorem generateEventId_unknown_collision_witness :
    OrderEventHandler.isValidEvent noOrderIdEvent1 = true ∧
    OrderEventHandler.isValidEvent noOrderIdEvent2 = true ∧
    noOrderIdEvent1.type = some "ORDER_CREATED" ∧
    noOrderIdEvent2.type = some "ORDER_CREATED" ∧
    noOrderIdEvent1.data.bind EventData.orderId = none ∧
    noOrderIdEvent2.data.bind EventData.orderId = none ∧
    noOrderIdEvent1.timestamp = noOrderIdEvent2.timestamp ∧
    OrderEventHandler.generateEventId "0" noOrderIdEvent1 ∉ emptyState.processed ∧
    ((∃ ts, noOrderIdEvent1.timestamp = some ts ∧
       OrderEventHandler.generateEventId "0" noOrderIdEvent1 =
         "ORDER_CREATED-unknown-" ++ ts ∧
       OrderEventHandler.generateEventId "1" noOrderIdEvent2 =
         "ORDER_CREATED-unknown-" ++ ts) ∧
     (OrderEventHandler.handle okChannels "0" emptyState noOrderIdEvent1).1 =
       .processedOk ∧
     OrderEventHandler.handle okChannels "1"
         (OrderEventHandler.handle okChannels "0" emptyState noOrderIdEvent1).2
         noOrderIdEvent2 =
       (.duplicateIgnored,
        (OrderEventHandler.handle okChannels "0" emptyState noOrderIdEvent1).2)) :=
  ⟨rfl, rfl, rfl, rfl, rfl, rfl, rfl, List.not_mem_nil _,
    generateEventId_unknown_collision okChannels okChannels "0" "1"
      emptyState noOrderIdEvent1 noOrderIdEvent2 rfl rfl rfl rfl rfl rfl rfl
      (List.not_mem_nil _)⟩

/-- Claim C2 witness: an order with an empty items list is rejected with
no side effects. -/
theorem createOrder_invalid_input_no_effects_witness :
    emptyItemsOrder.items.getD [] = [] ∧
    (∃ m, (OrderService.createOrder sampleOrderEnv emptyItemsOrder).1 = .error m) ∧
      (OrderService.createOrder sampleOrderEnv emptyItemsOrder).2 = [] :=
  ⟨rfl, createOrder_invalid_input_no_effects sampleOrderEnv emptyItemsOrder (Or.inl rfl)⟩

/-- Claim C4 counterexample: for a record that parses to a concrete event
and a handler that raises, the error is re-raised by `processMessage` but
the `eachMessage` callback returns normally, so nothing propagates to the
broker's redelivery path and the failure is swallowed. -/
theorem eachMessage_swallow_counterexample :
    OrderEventConsumer.processMessage (.ok sampleEvent) failingHandler =
      (.error "handler failure", 1) ∧
    OrderEventConsumer.eachMessage (.ok sampleEvent) failingHandler = (.ok (), 1) ∧
    (OrderEventConsumer.eachMessage (.ok sampleEvent) failingHandler).1 ≠
      .error "handler failure" := by
  refine ⟨rfl, rfl, ?_⟩
  intro h
  exact Except.noConfusion h

/-- Claim C4 (amended): handler errors propagate out of `processMessage`,
but the Consumer's `eachMessage` callback catches everything and returns
normally after logging, so a handler failure never escapes `eachMessage`
towards the broker; the Consumer performs no local retry (the handler runs
at most once per record). -/
theorem eachMessage_swallows_handler_errors (raw : Except String Event)
    (handler : Event → Except String Unit) :
    (OrderEventConsumer.eachMessage raw handler).1 = .ok () ∧
    (OrderEventConsumer.eachMessage raw handler).2 =
      (OrderEventConsumer.processMessage raw handler).2 ∧
    (OrderEventConsumer.processMessage raw handler).2 ≤ 1 ∧
    (∀ e m, raw = .ok e → handler e = .error m →
      (OrderEventConsumer.processMessage raw handler).1 = .error m) := by
  unfold OrderEventConsumer.eachMessage OrderEventConsumer.processMessage
    OrderEventConsumer.parseMessage
  cases raw with
  | error m => simp
  | ok e =>
    cases hh : handler e with
    | error m =>
      refine ⟨by simp [hh], by simp [hh], by simp [hh], ?_⟩
      intro e2 m2 he2 hm2
      obtain rfl : e = e2 := by injection he2
      rw [hh] at hm2
      obtain rfl : m = m2 := by injection hm2
      simp [hh]
    | ok u =>
      refine ⟨by simp [hh], by simp [hh], by simp [hh], ?_⟩
      intro e2 m2 he2 hm2
      obtain rfl : e = e2 := by injection he2
      rw [hh] at hm2
      exact Except.noConfusion hm2

/-- Claim C4 witness: the amended behaviour at a concrete record and
failing handler. -/
theorem eachMessage_swallows_handler_errors_witness :
    ((.ok sampleEvent : Except String Event) = .ok sampleEvent) ∧
    failingHandler sampleEvent = .error "handler failure" ∧
    (OrderEventConsumer.processMessage (.ok sampleEvent) failingHandler).1 =
      .error "handler failure" ∧
    (OrderEventConsumer.eachMessage (.ok sampleEvent) failingHandler).1 = .ok () :=
  ⟨rfl, rfl,
    (eachMessage_swallows_handler_errors (.ok sampleEvent) failingHandler).2.2.2
      sampleEvent "handler failure" rfl rfl,
    (eachMessage_swallows_handler_errors (.ok sampleEvent) failingHandler).1⟩

/-- Claim C6 counterexample: with the email send succeeding and the SMS
transport failing (one channel fails, the other succeeds), the aggregated
record of `sendOrderConfirmation` does not contain one success entry and
one failed entry: the SMS channel is never attempted, so there is exactly
one entry and no failed entry at all. -/
theorem sendOrderConfirmation_counterexample :
    ¬ (((NotificationService.sendOrderConfirmation smsFailChannels []
            sampleEventData).1.notifications.countP
          (fun n => n.status == "success") = 1) ∧
       ((NotificationService.sendOrderConfirmation smsFailChannels []
            sampleEventData).1.notifications.countP
          (fun n => n.status == "failed") = 1)) ∧
    (NotificationService.sendOrderConfirmation smsFailChannels []
        sampleEventData).1.notifications =
      [{ type := "email", status := "success" }] := by
  constructor
  · intro h
    exact absurd h.2 (by decide)
  · rfl

/-- Claim C6 (amended): `sendOrderConfirmation` attempts only the email
channel; for every channel environment and order it returns normally with
exactly one notification entry, of channel email, whose status is success
when the email send succeeds and failed when it throws; the SMS outcome is
never consulted and a channel failure is never escalated. -/
theorem sendOrderConfirmation_email_only (cenv : ChannelEnv)
    (history : List HistoryEntry) (orderData : EventData)
    (sms2 : Except String String) :
    (NotificationService.sendOrderConfirmation cenv history orderData).1.notifications =
      [{ type := "email"
         status := match cenv.emailResult with
           | .ok _ => "success"
           | .error _ => "failed" }] ∧
    (NotificationService.sendOrderConfirmation cenv history orderData).2 =
      history ++ [{ orderId := orderData.orderId, type := "ORDER_CONFIRMATION" }] ∧
    NotificationService.sendOrderConfirmation { cenv with smsResult := sms2 }
        history orderData =
      NotificationService.sendOrderConfirmation cenv history orderData := by
  refine ⟨?_, rfl, rfl⟩
  cases hh : cenv.emailResult <;>
    simp [NotificationService.sendOrderConfirmation, hh]

/-- Claim C7: the envelope `EventPublisher.publishOrderCreated` builds and
publishes carries type, timestamp, version, source and data but no `id`
field at all, so it fails the presence check of the repository's own base
envelope schema; the repository's own `EventBuilder.createOrderCreatedEvent`
does include the `id`. -/
theorem publishOrderCreated_missing_id :
    (∀ now order, (EventPublisher.publishOrderCreated now order).id = none ∧
      baseFieldsPresent (EventPublisher.publishOrderCreated now order) = false) ∧
    (∀ uuid now d, (EventBuilder.createOrderCreatedEvent uuid now d).id = some uuid ∧
      baseFieldsPresent (EventBuilder.createOrderCreatedEvent uuid now d) = true) :=
  ⟨fun _ _ => ⟨rfl, rfl⟩, fun _ _ _ => ⟨rfl, rfl⟩⟩

theorem baseValidate_ok {e : JEvent} {s : SanitizedEvent}
    (h : baseValidate e = .ok s) :
    e.extras = [] ∧ e.id = some s.id ∧ e.type = some s.type ∧
      e.timestamp = some s.timestamp ∧ e.source = some s.source ∧
      e.data = some s.data ∧ s.metadata = e.metadata ∧
      s.version = e.version.getD "1.0" := by
  unfold baseValidate baseValidateTail at h
  repeat' split at h
  all_goals try exact Except.noConfusion h
  all_goals
    obtain rfl : _ = s := by injection h
  all_goals simp_all

theorem validate_valid_base {e : JEvent} {s : SanitizedEvent}
    (h : EventValidator.validate e = .valid s) :
    baseValidate e = .ok s := by
  unfold EventValidator.validate at h
  cases hb : baseValidate e with
  | error m => rw [hb] at h; exact ValidationResult.noConfusion h
  | ok s2 =>
    rw [hb] at h
    split at h
    · rename_i x m heq
      exact Except.noConfusion heq
    · rename_i x s3 heq
      obtain rfl : s2 = s3 := by injection heq
      split at h
      · split at h
        · obtain rfl : s2 = s := by injection h
          rfl
        · exact ValidationResult.noConfusion h
      · exact ValidationResult.noConfusion h

/-- Claim C8 (amended): `validate` is a pure function of its input (the
caller's object is never mutated) and on success returns a sanitized
fresh copy whose fields are the input's with the `version` default
applied ("1.0" when absent); an event carrying unknown extra fields never
validates: Joi rejects unknown keys rather than stripping them. -/
theorem validate_rejects_unknown_and_defaults (e : JEvent) (s : SanitizedEvent) :
    (e.extras ≠ [] → EventValidator.validate e ≠ .valid s) ∧
    (EventValidator.validate e = .valid s →
      e.extras = [] ∧ e.id = some s.id ∧ e.type = some s.type ∧
        e.timestamp = some s.timestamp ∧ e.source = some s.source ∧
        e.data = some s.data ∧ s.metadata = e.metadata ∧
        s.version = e.version.getD "1.0") := by
  constructor
  · intro hex hval
    exact hex (baseValidate_ok (validate_valid_base hval)).1
  · intro hval
    exact baseValidate_ok (validate_valid_base hval)

/-- Claim C8 counterexample: an otherwise fully valid `HEALTH_CHECK` event
that carries one unknown top level field fails validation outright instead
of validating with the unknown field dropped; without the extra field the
same event validates, with the `version` default applied in the sanitized
copy. -/
theorem validate_unknown_field_counterexample :
    EventValidator.validate extraFieldSample =
      .invalid "Base validation failed: \"priority\" is not allowed" ∧
    EventValidator.validate healthySample = .valid healthySanitized ∧
    healthySample.version = none ∧ healthySanitized.version = "1.0" :=
  ⟨rfl, rfl, rfl, rfl⟩

/-- Claim C8 witness: the amended theorem applied at the event with the
unknown field and at the clean event. -/
theorem validate_rejects_unknown_and_defaults_witness :
    extraFieldSample.extras ≠ [] ∧
    EventValidator.validate extraFieldSample ≠ .valid healthySanitized ∧
    EventValidator.validate healthySample = .valid healthySanitized ∧
    healthySanitized.version = healthySample.version.getD "1.0" :=
  ⟨by decide,
    (validate_rejects_unknown_and_defaults extraFieldSample healthySanitized).1
      (by decide),
    rfl,
    ((validate_rejects_unknown_and_defaults healthySample healthySanitized).2
      rfl).2.2.2.2.2.2.2⟩
